import Mathlib

/-!
Verification of the SD-VARIANCE repository: a shallow embedding of the
risk-classification core shared by `src/stock.py` (return-series analysis)
and `src/tolerance.py` (measurement-tolerance analysis), together with
proofs about the properties stated in the specification.

Real numbers of the Python program are modelled by `ℚ`; the arithmetic the
code performs (differences, quotients, means, sums of squares) is rational,
so each comparison and equality proved here is exact.  Python `float` NaN is
modelled by `Option ℚ` with `none` for NaN, matching the pandas convention
that a statistic over too few observations is NaN and that `NaN > x` is
false.
-/

/-- Risk category produced by `risk_assessment` in both source files:
Low, Medium or High. -/
inductive Risk where
  | low
  | medium
  | high
deriving DecidableEq

/-- Ordinal rank of a risk level, for the monotonicity property
(Low < Medium < High). -/
def Risk.rank : Risk → ℕ
  | .low => 0
  | .medium => 1
  | .high => 2

/-- Embedding of `risk_assessment` (tolerance.py lines 86-92, and the
identical function at stock.py lines 138-142): `High` if the dispersion
exceeds the high threshold, else `Medium` if it exceeds the low threshold,
else `Low`.  Both comparisons are strict, and the `High` test runs first. -/
def risk_assessment (v low high : ℚ) : Risk :=
  if high < v then .high
  else if low < v then .medium
  else .low

/-- `risk_assessment` applied to a possibly-NaN float (`none` = NaN).
In Python, `nan > t` is `False` for every `t`, so both guards of
`risk_assessment` fail and the function returns Low. -/
def risk_assessmentNaN (x : Option ℚ) (low high : ℚ) : Risk :=
  match x with
  | none => .low
  | some v => risk_assessment v low high

/-- Mean of a list of rationals (`np.mean`, and the mean inside
`np.var` / pandas `var`).  For the empty list this is `0 / 0 = 0`; every
use below is guarded by a length hypothesis. -/
def meanQ (l : List ℚ) : ℚ := l.sum / l.length

/-- Sum of squared deviations from the mean, the shared numerator of the
population and sample variance. -/
def ssd (l : List ℚ) : ℚ := (l.map (fun x => (x - meanQ l) ^ 2)).sum

/-- Embedding of `calculate_variance` (tolerance.py lines 82-84):
`np.var(measurements)` with the NumPy default `ddof=0`, i.e. the
population variance with divisor `n`. -/
def calculate_variance (l : List ℚ) : ℚ := ssd l / l.length

/-- Sample variance with divisor `n - 1`, the value of a pandas
`Series.var()` call (default `ddof=1`) on a series with at least two
observations. -/
def sampleVarQ (l : List ℚ) : ℚ := ssd l / ((l.length : ℚ) - 1)

/-- pandas `Series.var()` (default `ddof=1`) including its NaN behaviour:
the result is NaN (`none`) when fewer than two observations are present,
and the sample variance otherwise.  `df['Return'].std()` at stock.py
line 170 is the square root of this value and is NaN in exactly the same
cases (the square root of a defined non-negative value is defined). -/
def pandasVar (l : List ℚ) : Option ℚ :=
  if l.length ≤ 1 then none else some (sampleVarQ l)

/-- Modelled from the spec: `variance(series, ddof)` defined by the
standard formula Σ(xᵢ − x̄)² / (n − ddof).  This is the spec-side
definition used as the refinement target for the ddof-convention claim;
the source-side definitions are `calculate_variance` and `pandasVar`. -/
def specVariance (ddof : ℕ) (l : List ℚ) : ℚ :=
  ssd l / ((l.length : ℚ) - (ddof : ℚ))

/-- Outcome of one run of the input-processing block of tolerance.py
(lines 104-133): the prompt shown for empty input, the validation error
for a non-numeric token (`ValueError` caught at line 130), the warning
for fewer than two samples (line 108), or a full report carrying the
computed variance and risk level. -/
inductive ToleranceOutcome where
  | promptShown
  | parseError
  | tooFew
  | report (variance : ℚ) (risk : Risk)
deriving DecidableEq

/-- Embedding of the tolerance.py main input-processing block
(lines 104-133).  The text box content is abstracted as the emptiness
flag of the raw string (`if measurements_input:`) plus the per-token
result of Python `float()` on each comma-separated token (`none` for a
token that raises `ValueError`).  If any token fails to parse, the whole
`list(map(float, ...))` call raises and the handler reports a validation
error; otherwise fewer than two parsed samples yields the warning;
otherwise the variance is computed and classified. -/
def tolerance_main (inputEmpty : Bool) (tokens : List (Option ℚ)) (low high : ℚ) :
    ToleranceOutcome :=
  if inputEmpty then .promptShown
  else if tokens.any (fun t => t.isNone) then .parseError
  else if (tokens.filterMap id).length < 2 then .tooFew
  else .report (calculate_variance (tokens.filterMap id))
    (risk_assessment (calculate_variance (tokens.filterMap id)) low high)

/-- C1, counterexample.  The claim asserts `classify(high, low, high) =
Medium` whenever `low ≤ high`; with `low = high = 0` both strict guards
fail and the classifier returns Low, not Medium. -/
theorem classify_eq_thresholds_cx :
    (0 : ℚ) ≤ (0 : ℚ) ∧ risk_assessment 0 0 0 = Risk.low ∧ Risk.low ≠ Risk.medium := by
  refine ⟨le_refl 0, ?_, by decide⟩
  unfold risk_assessment
  rw [if_neg (lt_irrefl 0), if_neg (lt_irrefl 0)]

/-- C1, amended.  With strict comparisons: `classify` returns High for
`d > high`, else Medium for `d > low`, else Low; `classify(low, low, high)
= Low`; `classify(high, low, high) = Medium` provided `low < high`
(strictly — for `low = high` it is Low); and `classify(high + eps, low,
high) = High` for every `eps > 0`. -/
theorem classify_boundary_amended (d low high eps : ℚ)
    (hlh : low ≤ high) (heps : 0 < eps) :
    (high < d → risk_assessment d low high = Risk.high) ∧
    (d ≤ high → low < d → risk_assessment d low high = Risk.medium) ∧
    (d ≤ high → d ≤ low → risk_assessment d low high = Risk.low) ∧
    risk_assessment low low high = Risk.low ∧
    (low < high → risk_assessment high low high = Risk.medium) ∧
    risk_assessment (high + eps) low high = Risk.high := by
  unfold risk_assessment
  refine ⟨?_, ?_, ?_, ?_, ?_, ?_⟩ <;> intros <;> split_ifs <;>
    first
    | rfl
    | (exfalso; linarith)

/-- Witness for the amended C1 theorem at `d = 3`, `low = 1`, `high = 2`,
`eps = 1`. -/
theorem classify_boundary_amended_witness :
    (1 : ℚ) ≤ 2 ∧ (0 : ℚ) < 1 ∧
    (((2 : ℚ) < 3 → risk_assessment 3 1 2 = Risk.high) ∧
     ((3 : ℚ) ≤ 2 → (1 : ℚ) < 3 → risk_assessment 3 1 2 = Risk.medium) ∧
     ((3 : ℚ) ≤ 2 → (3 : ℚ) ≤ 1 → risk_assessment 3 1 2 = Risk.low) ∧
     risk_assessment 1 1 2 = Risk.low ∧
     ((1 : ℚ) < 2 → risk_assessment 2 1 2 = Risk.medium) ∧
     risk_assessment (2 + 1) 1 2 = Risk.high) :=
  ⟨by norm_num, by norm_num, classify_boundary_amended 3 1 2 1 (by norm_num) (by norm_num)⟩

/-- C5, counterexample.  The population variance of
`[10.02, 10.05, 10.03, 9.98, 10.00]` is exactly `73 / 125000 = 0.000584`,
whose distance from the claimed `0.00067` exceeds `10⁻⁵` — far beyond the
spec's stated `10⁻⁹` tolerance and beyond any rounding convention under
which `0.000584 ≈ 0.00067` could hold. -/
theorem measurement_variance_cx :
    calculate_variance [1002/100, 1005/100, 1003/100, 998/100, 1000/100] = 73/125000 ∧
    1/100000 < |(73 : ℚ)/125000 - 67/100000| := by
  constructor
  · norm_num [calculate_variance, ssd, meanQ]
  · rw [show (73 : ℚ)/125000 - 67/100000 = -(43/500000) by norm_num]
    rw [abs_neg, abs_of_nonneg (by norm_num)]
    norm_num

/-- C5, amended.  For the measurements `[10.02, 10.05, 10.03, 9.98,
10.00]` the population variance is exactly `0.000584` (not `≈ 0.00067`),
and classifying it against `low = 0.0004`, `high = 0.0016` still yields
Medium Risk. -/
theorem measurement_variance_amended :
    calculate_variance [1002/100, 1005/100, 1003/100, 998/100, 1000/100] = 73/125000 ∧
    risk_assessment
      (calculate_variance [1002/100, 1005/100, 1003/100, 998/100, 1000/100])
      (4/10000) (16/10000) = Risk.medium := by
  have h : calculate_variance [1002/100, 1005/100, 1003/100, 998/100, 1000/100]
      = 73/125000 := by
    norm_num [calculate_variance, ssd, meanQ]
  refine ⟨h, ?_⟩
  rw [h]
  unfold risk_assessment
  rw [if_neg (by norm_num), if_pos (by norm_num)]

/-- C6.  For thresholds with `low ≤ high`, the classifier is monotone in
the dispersion value: `d1 ≤ d2` implies the risk rank of `d1` is at most
the risk rank of `d2` in the order Low < Medium < High. -/
theorem classify_monotone (low high d1 d2 : ℚ)
    (_hlh : low ≤ high) (hd : d1 ≤ d2) :
    Risk.rank (risk_assessment d1 low high) ≤ Risk.rank (risk_assessment d2 low high) := by
  unfold risk_assessment
  split_ifs with h1 h2 h3 h4 h5 <;> simp [Risk.rank] <;> linarith

/-- Witness for the monotonicity theorem at `low = 1`, `high = 2`,
`d1 = 3/2`, `d2 = 3`. -/
theorem classify_monotone_witness :
    (1 : ℚ) ≤ 2 ∧ (3/2 : ℚ) ≤ 3 ∧
    Risk.rank (risk_assessment (3/2) 1 2) ≤ Risk.rank (risk_assessment 3 1 2) :=
  ⟨by norm_num, by norm_num, classify_monotone 1 2 (3/2) 3 (by norm_num) (by norm_num)⟩

/-- C10.  The High comparison is evaluated first: `d > high` forces High
for every threshold pair, and in the misordered case `low > high` a value
with `high < d ≤ low` is still classified High (never Medium or Low).
Totality and determinism hold by construction: `risk_assessment` is a
total function of its three arguments. -/
theorem classify_high_first (d low high : ℚ) :
    (high < d → risk_assessment d low high = Risk.high) ∧
    (high < low → high < d → d ≤ low → risk_assessment d low high = Risk.high) := by
  unfold risk_assessment
  constructor
  · intro h; simp [h]
  · intro _hlh hd _hdl; simp [hd]

/-- Witness for the High-first theorem at `d = 2`, `low = 3`, `high = 1`
(misordered thresholds, `high < d ≤ low`). -/
theorem classify_high_first_witness :
    ((1 : ℚ) < 2 → risk_assessment 2 3 1 = Risk.high) ∧
    ((1 : ℚ) < 3 → (1 : ℚ) < 2 → (2 : ℚ) ≤ 3 → risk_assessment 2 3 1 = Risk.high) :=
  classify_high_first 2 3 1

/-- C9.  Any input error in measurement mode — empty input, a
non-numeric token, or fewer than two samples — leaves the analysis at a
validation message (prompt, parse error, or too-few warning): the outcome
is never a report, so no variance is computed and no risk level is
produced. -/
theorem input_error_no_report (inputEmpty : Bool) (tokens : List (Option ℚ)) (low high : ℚ)
    (h : inputEmpty = true ∨ tokens.any (fun t => t.isNone) = true ∨ tokens.length < 2) :
    tolerance_main inputEmpty tokens low high = ToleranceOutcome.promptShown ∨
    tolerance_main inputEmpty tokens low high = ToleranceOutcome.parseError ∨
    tolerance_main inputEmpty tokens low high = ToleranceOutcome.tooFew := by
  unfold tolerance_main
  by_cases he : inputEmpty = true
  · left; rw [if_pos he]
  · simp only [Bool.not_eq_true] at he
    subst he
    rw [if_neg (by simp)]
    by_cases ha : tokens.any (fun t => t.isNone) = true
    · right; left; rw [if_pos ha]
    · have hlen : tokens.length < 2 := by
        rcases h with h | h | h
        · simp at h
        · exact absurd h ha
        · exact h
      have hle : (tokens.filterMap id).length ≤ tokens.length :=
        List.length_filterMap_le id tokens
      right; right
      rw [if_neg ha, if_pos (by omega)]

/-- Witness for the input-error theorem: a single-token numeric input
(one sample) yields a validation outcome and no report. -/
theorem input_error_no_report_witness :
    ((false = true ∨ ([some (5 : ℚ)].any (fun t => t.isNone)) = true ∨
        [some (5 : ℚ)].length < 2) ∧
     (tolerance_main false [some (5 : ℚ)] (4/10000) (16/10000) = ToleranceOutcome.promptShown ∨
      tolerance_main false [some (5 : ℚ)] (4/10000) (16/10000) = ToleranceOutcome.parseError ∨
      tolerance_main false [some (5 : ℚ)] (4/10000) (16/10000) = ToleranceOutcome.tooFew)) :=
  ⟨Or.inr (Or.inr (by simp)),
   input_error_no_report false [some (5 : ℚ)] (4/10000) (16/10000)
     (Or.inr (Or.inr (by simp)))⟩

/-- A pandas column (index-aligned series of possibly-NaN floats): entry
`i` of the column for a list, `none` past the end. -/
def colOf (l : List ℚ) (i : ℕ) : Option ℚ := l[i]?

/-- All-or-nothing materialisation of a rolling window: `none` as soon as
one entry is NaN, matching the pandas default `min_periods = window`
(a rolling statistic is NaN unless every slot of the window holds a
non-NaN observation). -/
def seqOpt : List (Option ℚ) → Option (List ℚ)
  | [] => some []
  | none :: _ => none
  | some a :: rest => (seqOpt rest).map (a :: ·)

/-- pandas `Series.rolling(window)` followed by an aggregation `f`: the
value at row `i` is NaN for `i < window - 1`, NaN if any window slot is
NaN, and otherwise `f` of the `window` trailing observations ending at
`i` (stock.py lines 134-135). -/
def pandasRolling (w : ℕ) (f : List ℚ → Option ℚ) (col : ℕ → Option ℚ) (i : ℕ) :
    Option ℚ :=
  if i + 1 < w then none
  else
    match seqOpt ((List.range w).map (fun j => col (i + 1 - w + j))) with
    | some win => f win
    | none => none

/-- The rolling variance series over a clean input series, with the NaN
rows dropped (spec §4.1 `rollingVariance`): the aggregation is the
`ddof=1` variance, the convention of the only rolling caller
(`df['Return'].rolling(window).std()` at stock.py line 134 squares to
exactly these values and is NaN in exactly the same rows). -/
def rollingVarSeq (l : List ℚ) (w : ℕ) : List ℚ :=
  (List.range l.length).filterMap (pandasRolling w pandasVar (colOf l))

/-- The rolling mean series over a clean input series with the NaN rows
dropped (`df['Close'].rolling(window).mean()` at stock.py line 135). -/
def rollingMeanSeq (l : List ℚ) (w : ℕ) : List ℚ :=
  (List.range l.length).filterMap (pandasRolling w (fun win => some (meanQ win)) (colOf l))

/-- The `Return` column built by `df['Close'].pct_change()` (stock.py
line 133): NaN at row 0, `(pᵢ − pᵢ₋₁) / pᵢ₋₁` at row `i ≥ 1`.  The
`Close` column is assumed free of missing values (the cleaning invariant
of `ObservationSeries`). -/
def retC (close : List ℚ) (i : ℕ) : Option ℚ :=
  if i = 0 then none
  else
    match close[i]?, close[i-1]? with
    | some cur, some prev => some ((cur - prev) / prev)
    | _, _ => none

/-- The value of the return at row `i ≥ 1`, as a total function. -/
def retVal (close : List ℚ) (i : ℕ) : ℚ :=
  (close.getD i 0 - close.getD (i-1) 0) / close.getD (i-1) 0

/-- One row of `df.dropna()` (stock.py line 136): the row survives iff
every column — `Return`, `Rolling Volatility`, `MA` — is non-NaN, and the
surviving row contributes its `Return` value to the series that
lines 170-171 aggregate. -/
def keepRow (r rv ma : Option ℚ) : Option ℚ :=
  match r, rv, ma with
  | some x, some _, some _ => some x
  | _, _, _ => none

/-- Embedding of `process_ticker` (stock.py lines 130-136) restricted to
the data consumed downstream: the `Return` column of the dataframe after
`dropna()`.  Row `i` carries `Close.pct_change()` at `i`, the rolling
standard deviation of `Return` (NaN in exactly the rows where its
`ddof=1` variance is NaN), and the rolling mean of `Close`; `dropna`
keeps the rows where all three are defined. -/
def processTicker (close : List ℚ) (w : ℕ) : List ℚ :=
  (List.range close.length).filterMap (fun i =>
    keepRow (retC close i) (pandasRolling w pandasVar (retC close) i)
      (pandasRolling w (fun win => some (meanQ win)) (colOf close) i))

/-- The full return series derived from a price series: every
`rᵢ = (pᵢ − pᵢ₋₁) / pᵢ₋₁` for `i ≥ 1`, the undefined first entry of
`pct_change` dropped (spec §4.1 `returns`). -/
def returnsOf (close : List ℚ) : List ℚ :=
  (List.range (close.length - 1)).map
    (fun k => (close.getD (k+1) 0 - close.getD k 0) / close.getD k 0)

/-- The variance that stock.py line 171 computes and that line 173
classifies (through its square root, the line 170 standard deviation):
pandas `var()` with `ddof=1` over the `Return` column that survives
`dropna()`. -/
def stockVar (close : List ℚ) (w : ℕ) : Option ℚ := pandasVar (processTicker close w)

lemma seqOpt_map_some (u : ℕ → ℚ) : ∀ xs : List ℕ,
    seqOpt (xs.map (fun j => some (u j))) = some (xs.map u)
  | [] => rfl
  | x :: xs => by
    simp only [List.map_cons, seqOpt, seqOpt_map_some u xs, Option.map_some']

lemma seqOpt_range_map_none (w : ℕ) (hw : 1 ≤ w) (f : ℕ → Option ℚ) (h0 : f 0 = none) :
    seqOpt ((List.range w).map f) = none := by
  obtain ⟨w', rfl⟩ : ∃ w', w = w' + 1 := ⟨w - 1, by omega⟩
  rw [List.range_succ_eq_map]
  simp only [List.map_cons, h0, seqOpt]

lemma filterMap_range_eq {α : Type} (g : ℕ → Option α) (v : ℕ → α) (t : ℕ) :
    ∀ n : ℕ, (∀ i, i < n → g i = if i < t then none else some (v i)) →
      (List.range n).filterMap g = (List.range (n - t)).map (fun j => v (t + j))
  | 0, _ => by simp
  | (n+1), hg => by
    rw [List.range_succ, List.filterMap_append,
      filterMap_range_eq g v t n (fun i hi => hg i (by omega))]
    by_cases hn : n < t
    · have h1 : n + 1 - t = 0 := by omega
      have h2 : n - t = 0 := by omega
      simp [h1, h2, hg n (by omega), hn]
    · have h1 : n + 1 - t = (n - t) + 1 := by omega
      have h2 : t + (n - t) = n := by omega
      rw [h1, List.range_succ, List.map_append]
      simp [hg n (by omega), hn, h2]

lemma window_eq (l : List ℚ) (a w : ℕ) (h : a + w ≤ l.length) :
    (List.range w).map (fun j => l.getD (a + j) 0) = (l.drop a).take w := by
  apply List.ext_getElem?
  intro k
  by_cases hk : k < w
  · rw [List.getElem?_map, List.getElem?_range hk, Option.map_some',
      List.getElem?_take, if_pos hk, List.getElem?_drop]
    have hak : a + k < l.length := by omega
    rw [List.getElem?_eq_getElem hak, List.getD_eq_getElem l 0 hak]
  · rw [List.getElem?_map,
      List.getElem?_eq_none (by simpa using (by omega : w ≤ k)),
      List.getElem?_eq_none]
    · rfl
    · rw [List.length_take]
      omega

lemma window_length (l : List ℚ) (a w : ℕ) (h : a + w ≤ l.length) :
    ((l.drop a).take w).length = w := by
  rw [List.length_take, List.length_drop]
  omega

lemma pandasRolling_colOf_eq (l : List ℚ) (w i : ℕ) (f : List ℚ → Option ℚ)
    (hw : 1 ≤ w) (hi : i < l.length) :
    pandasRolling w f (colOf l) i =
      if i < w - 1 then none else f ((l.drop (i + 1 - w)).take w) := by
  unfold pandasRolling
  by_cases hc : i + 1 < w
  · rw [if_pos hc, if_pos (by omega)]
  · rw [if_neg hc, if_neg (by omega)]
    have hcong : ∀ j ∈ List.range w,
        colOf l (i + 1 - w + j) = some (l.getD (i + 1 - w + j) 0) := by
      intro j hj
      rw [List.mem_range] at hj
      have hlt : i + 1 - w + j < l.length := by omega
      unfold colOf
      rw [List.getElem?_eq_getElem hlt, List.getD_eq_getElem l 0 hlt]
    rw [List.map_congr_left hcong, seqOpt_map_some, window_eq l (i + 1 - w) w (by omega)]

lemma rollingVarSeq_eq (l : List ℚ) (w : ℕ) (hw : 2 ≤ w) :
    rollingVarSeq l w =
      (List.range (l.length - (w - 1))).map
        (fun j => sampleVarQ ((l.drop j).take w)) := by
  unfold rollingVarSeq
  rw [filterMap_range_eq (pandasRolling w pandasVar (colOf l))
    (fun i => sampleVarQ ((l.drop (i + 1 - w)).take w)) (w - 1) l.length]
  · apply List.map_congr_left
    intro j hj
    rw [List.mem_range] at hj
    have : w - 1 + j + 1 - w = j := by omega
    rw [this]
  · intro i hi
    rw [pandasRolling_colOf_eq l w i pandasVar (by omega) hi]
    by_cases hc : i < w - 1
    · rw [if_pos hc, if_pos hc]
    · rw [if_neg hc, if_neg hc]
      unfold pandasVar
      rw [if_neg]
      rw [window_length l (i + 1 - w) w (by omega)]
      omega

lemma rollingMeanSeq_eq (l : List ℚ) (w : ℕ) (hw : 1 ≤ w) :
    rollingMeanSeq l w =
      (List.range (l.length - (w - 1))).map
        (fun j => meanQ ((l.drop j).take w)) := by
  unfold rollingMeanSeq
  rw [filterMap_range_eq (pandasRolling w (fun win => some (meanQ win)) (colOf l))
    (fun i => meanQ ((l.drop (i + 1 - w)).take w)) (w - 1) l.length]
  · apply List.map_congr_left
    intro j hj
    rw [List.mem_range] at hj
    have : w - 1 + j + 1 - w = j := by omega
    rw [this]
  · intro i hi
    rw [pandasRolling_colOf_eq l w i _ hw hi]

lemma retC_zero (close : List ℚ) : retC close 0 = none := rfl

lemma retC_some (close : List ℚ) (i : ℕ) (h1 : 1 ≤ i) (h2 : i < close.length) :
    retC close i = some (retVal close i) := by
  unfold retC retVal
  rw [if_neg (by omega), List.getElem?_eq_getElem h2,
    List.getElem?_eq_getElem (show i - 1 < close.length by omega),
    List.getD_eq_getElem close 0 h2,
    List.getD_eq_getElem close 0 (show i - 1 < close.length by omega)]

lemma keepRow_first_none (rv ma : Option ℚ) : keepRow none rv ma = none := by
  unfold keepRow
  cases rv <;> cases ma <;> rfl

lemma keepRow_second_none (r ma : Option ℚ) : keepRow r none ma = none := by
  unfold keepRow
  cases r <;> cases ma <;> rfl

lemma keepRow_all_some (x y z : ℚ) : keepRow (some x) (some y) (some z) = some x := rfl

lemma processTicker_eq (close : List ℚ) (w : ℕ) (hw : 2 ≤ w) :
    processTicker close w =
      (List.range (close.length - w)).map (fun j => retVal close (w + j)) := by
  unfold processTicker
  rw [filterMap_range_eq _ (fun i => retVal close i) w close.length]
  intro i hi
  by_cases hc : i < w
  · rw [if_pos hc]
    by_cases h0 : i = 0
    · subst h0
      rw [retC_zero, keepRow_first_none]
    · have hrv : pandasRolling w pandasVar (retC close) i = none := by
        unfold pandasRolling
        by_cases hcc : i + 1 < w
        · rw [if_pos hcc]
        · rw [if_neg hcc]
          have ha : i + 1 - w = 0 := by omega
          rw [show (fun j => retC close (i + 1 - w + j)) = (fun j => retC close (0 + j)) by
            rw [ha]]
          rw [seqOpt_range_map_none w (by omega) _ (by simpa using retC_zero close)]
      rw [hrv, keepRow_second_none]
  · rw [if_neg hc]
    have hr : retC close i = some (retVal close i) := retC_some close i (by omega) hi
    have hrv : pandasRolling w pandasVar (retC close) i =
        some (sampleVarQ ((List.range w).map (fun j => retVal close (i + 1 - w + j)))) := by
      unfold pandasRolling
      rw [if_neg (by omega)]
      have hcong : ∀ j ∈ List.range w,
          retC close (i + 1 - w + j) = some (retVal close (i + 1 - w + j)) := by
        intro j hj
        rw [List.mem_range] at hj
        exact retC_some close (i + 1 - w + j) (by omega) (by omega)
      rw [List.map_congr_left hcong, seqOpt_map_some]
      show pandasVar ((List.range w).map (fun j => retVal close (i + 1 - w + j)))
          = some (sampleVarQ ((List.range w).map (fun j => retVal close (i + 1 - w + j))))
      unfold pandasVar
      rw [if_neg (by simp; omega)]
    have hma : pandasRolling w (fun win => some (meanQ win)) (colOf close) i =
        some (meanQ ((close.drop (i + 1 - w)).take w)) := by
      rw [pandasRolling_colOf_eq close w i _ (by omega) hi, if_neg (by omega)]
    rw [hr, hrv, hma, keepRow_all_some]

lemma map_range_drop {α : Type} (f : ℕ → α) (m d : ℕ) :
    ((List.range m).map f).drop d = (List.range (m - d)).map (fun j => f (d + j)) := by
  apply List.ext_getElem?
  intro k
  rw [List.getElem?_drop, List.getElem?_map, List.getElem?_map]
  by_cases h : d + k < m
  · rw [List.getElem?_range h, List.getElem?_range (show k < m - d by omega)]
    rfl
  · rw [List.getElem?_eq_none (by simpa using (by omega : m ≤ d + k)),
      List.getElem?_eq_none (by simpa using (by omega : m - d ≤ k))]
    rfl

lemma processTicker_eq_drop (close : List ℚ) (w : ℕ) (hw : 2 ≤ w) :
    processTicker close w = (returnsOf close).drop (w - 1) := by
  rw [processTicker_eq close w hw]
  unfold returnsOf
  rw [map_range_drop]
  have hm : close.length - 1 - (w - 1) = close.length - w := by omega
  rw [hm]
  apply List.map_congr_left
  intro j hj
  unfold retVal
  rw [show w - 1 + j + 1 = w + j by omega, show w + j - 1 = w - 1 + j by omega]

/-- C2, counterexample.  For the price series
`[100, 200, 100, 100, 100, 100, 100, 100]` and window 5, the return
series the code aggregates (the `Return` column after `dropna()`) is
`[0, 0, 0]` — not the full return series `[1, -1/2, 0, 0, 0, 0, 0]` —
and the variance actually computed (`0`) differs from the full-series
variance (`17/84`). -/
theorem stock_stats_truncated_cx :
    processTicker [100, 200, 100, 100, 100, 100, 100, 100] 5 ≠
      returnsOf [100, 200, 100, 100, 100, 100, 100, 100] ∧
    stockVar [100, 200, 100, 100, 100, 100, 100, 100] 5 ≠
      pandasVar (returnsOf [100, 200, 100, 100, 100, 100, 100, 100]) := by
  have hret : returnsOf [100, 200, 100, 100, 100, 100, 100, 100]
      = [1, -1/2, 0, 0, 0, 0, 0] := by
    unfold returnsOf
    norm_num [List.range_succ, List.getD_cons_zero, List.getD_cons_succ]
  have hkept : processTicker [100, 200, 100, 100, 100, 100, 100, 100] 5 = [0, 0, 0] := by
    rw [processTicker_eq_drop _ _ (by norm_num), hret]
    rfl
  constructor
  · rw [hkept, hret]
    intro h
    have hlen := congrArg List.length h
    simp at hlen
  · unfold stockVar
    rw [hkept, hret]
    have h1 : sampleVarQ [0, 0, 0] = 0 := by
      norm_num [sampleVarQ, ssd, meanQ]
    have h2 : sampleVarQ [1, -1/2, 0, 0, 0, 0, 0] = 17/84 := by
      norm_num [sampleVarQ, ssd, meanQ]
    unfold pandasVar
    rw [if_neg (by norm_num), if_neg (by norm_num), h1, h2]
    intro h
    rw [Option.some_inj] at h
    norm_num at h

/-- C2, amended.  The standard deviation and variance of stock.py
lines 170-171 are computed over the `Return` column after `dropna()`,
which equals the full return series with its first `window − 1` returns
dropped (rows `1 … window − 1` are removed because the rolling statistics
are NaN there), not over the full return series. -/
theorem stock_stats_over_kept (close : List ℚ) (w : ℕ) (hw : 2 ≤ w) :
    processTicker close w = (returnsOf close).drop (w - 1) ∧
    stockVar close w = pandasVar ((returnsOf close).drop (w - 1)) := by
  have h := processTicker_eq_drop close w hw
  exact ⟨h, by unfold stockVar; rw [h]⟩

/-- Witness for the amended C2 theorem at the eight-price series and
window 5. -/
theorem stock_stats_over_kept_witness :
    2 ≤ 5 ∧
    (processTicker [100, 200, 100, 100, 100, 100, 100, 100] 5 =
        (returnsOf [100, 200, 100, 100, 100, 100, 100, 100]).drop (5 - 1) ∧
      stockVar [100, 200, 100, 100, 100, 100, 100, 100] 5 =
        pandasVar ((returnsOf [100, 200, 100, 100, 100, 100, 100, 100]).drop (5 - 1))) :=
  ⟨by norm_num, stock_stats_over_kept [100, 200, 100, 100, 100, 100, 100, 100] 5 (by norm_num)⟩

/-- C3, counterexample.  For a three-row price series and window 30
(window exceeds the series length), every row of the dataframe is
dropped, the standard deviation of the empty `Return` column is NaN, and
`risk_assessment` applied to NaN returns Low: the analysis renders a
risk classification ("🟢 Low") with the default thresholds, not an
"insufficient data" message. -/
theorem degenerate_reports_low_cx :
    processTicker [100, 102, 101] 30 = [] ∧
    risk_assessmentNaN (stockVar [100, 102, 101] 30) (15/1000) (3/100) = Risk.low := by
  exact ⟨rfl, rfl⟩

/-- C3, amended.  When the window is at least the number of price rows,
the dataframe after `dropna()` is empty, the statistics are NaN, and the
analysis does not crash but also does not report "insufficient data": it
classifies the NaN dispersion as Low Risk for every threshold pair. -/
theorem degenerate_reports_low (close : List ℚ) (w : ℕ) (low high : ℚ)
    (hw : 2 ≤ w) (hlen : close.length ≤ w) :
    processTicker close w = [] ∧
    risk_assessmentNaN (stockVar close w) low high = Risk.low := by
  have h : processTicker close w = [] := by
    rw [processTicker_eq close w hw, show close.length - w = 0 by omega]
    rfl
  refine ⟨h, ?_⟩
  unfold stockVar
  rw [h]
  rfl

/-- Witness for the amended C3 theorem: a 20-row price series with the
30-day window (the spec's Scenario E shape) reports Low Risk on NaN
statistics. -/
theorem degenerate_reports_low_witness :
    2 ≤ 30 ∧
    ([100, 101, 102, 103, 104, 105, 106, 107, 108, 109,
      110, 111, 112, 113, 114, 115, 116, 117, 118, 119] : List ℚ).length ≤ 30 ∧
    (processTicker [100, 101, 102, 103, 104, 105, 106, 107, 108, 109,
        110, 111, 112, 113, 114, 115, 116, 117, 118, 119] 30 = [] ∧
      risk_assessmentNaN (stockVar [100, 101, 102, 103, 104, 105, 106, 107, 108, 109,
        110, 111, 112, 113, 114, 115, 116, 117, 118, 119] 30) (15/1000) (3/100) = Risk.low) :=
  ⟨by norm_num, by simp,
   degenerate_reports_low _ 30 (15/1000) (3/100) (by norm_num) (by simp)⟩

/-- C4.  The two analysis modes use different delta-degrees-of-freedom
conventions: the stock mode's variance (line 171, classified through its
square root at line 173) is the spec formula with `ddof = 1` over the
kept return series, while the tolerance mode's `calculate_variance` is
the spec formula with `ddof = 0`. -/
theorem ddof_conventions (close : List ℚ) (w : ℕ) (l : List ℚ)
    (hk : 2 ≤ (processTicker close w).length) (_hl : 2 ≤ l.length) :
    stockVar close w = some (specVariance 1 (processTicker close w)) ∧
    calculate_variance l = specVariance 0 l := by
  constructor
  · unfold stockVar pandasVar
    rw [if_neg (by omega)]
    unfold sampleVarQ specVariance
    norm_num
  · unfold calculate_variance specVariance
    norm_num

/-- Witness for the ddof theorem: the stock side at the eight-price
series with window 5 (three kept returns), the tolerance side at a
three-measurement list. -/
theorem ddof_conventions_witness :
    2 ≤ (processTicker [100, 200, 100, 100, 100, 100, 100, 100] 5).length ∧
    2 ≤ ([1, 2, 3] : List ℚ).length ∧
    (stockVar [100, 200, 100, 100, 100, 100, 100, 100] 5 =
        some (specVariance 1 (processTicker [100, 200, 100, 100, 100, 100, 100, 100] 5)) ∧
      calculate_variance [1, 2, 3] = specVariance 0 [1, 2, 3]) :=
  ⟨by decide, by decide,
   ddof_conventions [100, 200, 100, 100, 100, 100, 100, 100] 5 [1, 2, 3]
     (by decide) (by decide)⟩

/-- C7, counterexample.  With window `w = 1` the rolling variance /
standard deviation (`ddof = 1`, the stock caller's convention) is NaN at
every position, so the rolling series is empty — not of length
`n − (w − 1) = n` as the claim asserts for every `w ≥ 1`. -/
theorem rolling_var_w1_cx :
    rollingVarSeq [1, 2, 3] 1 = [] ∧
    (rollingVarSeq [1, 2, 3] 1).length ≠ ([1, 2, 3] : List ℚ).length + 1 - 1 := by
  refine ⟨rfl, ?_⟩
  rw [show rollingVarSeq [1, 2, 3] 1 = [] from rfl]
  simp

/-- C7, amended.  On a clean series the rolling mean (any `w ≥ 1`) and
the rolling variance / standard deviation (for `w ≥ 2`; with `w = 1`
their `ddof = 1` statistic is NaN everywhere and the output is empty)
are defined exactly at positions `i ≥ w − 1`, each value the statistic
of the trailing `w` observations ending at `i`; the output has length
`n + 1 − w`, and a window exceeding the series length yields an empty
sequence, not an error. -/
theorem rolling_window_amended (l : List ℚ) (w : ℕ) (hw : 1 ≤ w) :
    ((rollingMeanSeq l w).length = l.length + 1 - w ∧
      ∀ j, j < l.length + 1 - w →
        (rollingMeanSeq l w)[j]? = some (meanQ ((l.drop j).take w))) ∧
    (2 ≤ w →
      (rollingVarSeq l w).length = l.length + 1 - w ∧
      ∀ j, j < l.length + 1 - w →
        (rollingVarSeq l w)[j]? = some (sampleVarQ ((l.drop j).take w))) ∧
    (l.length < w → rollingMeanSeq l w = [] ∧ rollingVarSeq l w = []) := by
  have hmean := rollingMeanSeq_eq l w hw
  have heq : l.length - (w - 1) = l.length + 1 - w := by omega
  refine ⟨⟨?_, ?_⟩, ?_, ?_⟩
  · rw [hmean]
    simp [heq]
  · intro j hj
    rw [hmean, List.getElem?_map,
      List.getElem?_range (show j < l.length - (w - 1) by omega)]
    rfl
  · intro hw2
    have hvar := rollingVarSeq_eq l w hw2
    constructor
    · rw [hvar]
      simp [heq]
    · intro j hj
      rw [hvar, List.getElem?_map,
        List.getElem?_range (show j < l.length - (w - 1) by omega)]
      rfl
  · intro hlt
    constructor
    · rw [hmean, show l.length - (w - 1) = 0 by omega]
      rfl
    · by_cases hw2 : 2 ≤ w
      · rw [rollingVarSeq_eq l w hw2, show l.length - (w - 1) = 0 by omega]
        rfl
      · have hl0 : l = [] := List.length_eq_zero.mp (by omega)
        subst hl0
        rfl

/-- Witness for the amended C7 theorem at the series `[1, 2, 3, 4]` with
window 2. -/
theorem rolling_window_amended_witness :
    1 ≤ 2 ∧
    (((rollingMeanSeq [1, 2, 3, 4] 2).length = ([1, 2, 3, 4] : List ℚ).length + 1 - 2 ∧
      ∀ j, j < ([1, 2, 3, 4] : List ℚ).length + 1 - 2 →
        (rollingMeanSeq [1, 2, 3, 4] 2)[j]? =
          some (meanQ ((([1, 2, 3, 4] : List ℚ).drop j).take 2))) ∧
    (2 ≤ 2 →
      (rollingVarSeq [1, 2, 3, 4] 2).length = ([1, 2, 3, 4] : List ℚ).length + 1 - 2 ∧
      ∀ j, j < ([1, 2, 3, 4] : List ℚ).length + 1 - 2 →
        (rollingVarSeq [1, 2, 3, 4] 2)[j]? =
          some (sampleVarQ ((([1, 2, 3, 4] : List ℚ).drop j).take 2))) ∧
    (([1, 2, 3, 4] : List ℚ).length < 2 →
      rollingMeanSeq [1, 2, 3, 4] 2 = [] ∧ rollingVarSeq [1, 2, 3, 4] 2 = [])) :=
  ⟨by norm_num, rolling_window_amended [1, 2, 3, 4] 2 (by norm_num)⟩

/-- C8.  The return series derived from a price series of length
`n ≥ 2` has length `n − 1`, its entry at position `i − 1` being
`(pᵢ − pᵢ₋₁) / pᵢ₋₁` for each `1 ≤ i < n`; for `[100, 102, 101, 105]`
the returns are `[1/50, −1/102, 4/101]`, within `5·10⁻⁵` of the rounded
values `[0.02, −0.0098, 0.0396]`. -/
theorem returns_series (close : List ℚ) (h2 : 2 ≤ close.length) :
    ((returnsOf close).length = close.length - 1 ∧
      ∀ i, 1 ≤ i → i < close.length →
        (returnsOf close)[i-1]? =
          some ((close.getD i 0 - close.getD (i-1) 0) / close.getD (i-1) 0)) ∧
    (returnsOf [100, 102, 101, 105]).length = 3 ∧
    |(returnsOf [100, 102, 101, 105]).getD 0 0 - 2/100| ≤ 1/20000 ∧
    |(returnsOf [100, 102, 101, 105]).getD 1 0 - (-98/10000)| ≤ 1/20000 ∧
    |(returnsOf [100, 102, 101, 105]).getD 2 0 - 396/10000| ≤ 1/20000 := by
  have hconc : returnsOf [100, 102, 101, 105] = [1/50, -1/102, 4/101] := by
    unfold returnsOf
    norm_num [List.range_succ, List.getD_cons_zero, List.getD_cons_succ]
  refine ⟨⟨?_, ?_⟩, ?_, ?_, ?_, ?_⟩
  · unfold returnsOf
    simp
  · intro i h1 hlt
    unfold returnsOf
    rw [List.getElem?_map,
      List.getElem?_range (show i - 1 < close.length - 1 by omega)]
    simp only [Option.map_some']
    rw [show i - 1 + 1 = i from by omega]
  · rw [hconc]
    rfl
  · rw [hconc]
    rw [abs_le]
    constructor <;> norm_num [List.getD_cons_zero]
  · rw [hconc]
    rw [abs_le]
    constructor <;> norm_num [List.getD_cons_zero, List.getD_cons_succ]
  · rw [hconc]
    rw [abs_le]
    constructor <;> norm_num [List.getD_cons_zero, List.getD_cons_succ]

/-- Witness for the returns theorem at the two-price series
`[100, 102]`. -/
theorem returns_series_witness :
    2 ≤ ([100, 102] : List ℚ).length ∧
    (((returnsOf [100, 102]).length = ([100, 102] : List ℚ).length - 1 ∧
      ∀ i, 1 ≤ i → i < ([100, 102] : List ℚ).length →
        (returnsOf [100, 102])[i-1]? =
          some ((([100, 102] : List ℚ).getD i 0 - ([100, 102] : List ℚ).getD (i-1) 0) /
            ([100, 102] : List ℚ).getD (i-1) 0)) ∧
    (returnsOf [100, 102, 101, 105]).length = 3 ∧
    |(returnsOf [100, 102, 101, 105]).getD 0 0 - 2/100| ≤ 1/20000 ∧
    |(returnsOf [100, 102, 101, 105]).getD 1 0 - (-98/10000)| ≤ 1/20000 ∧
    |(returnsOf [100, 102, 101, 105]).getD 2 0 - 396/10000| ≤ 1/20000) :=
  ⟨by norm_num, returns_series [100, 102] (by norm_num)⟩
